import Mathlib

/-!
Verification development for the zheide garment-customizer core:
the transform-interaction state machine (TextureEditor) and the
deterministic texture compositor (canvasService), shallowly embedded.
JavaScript numbers are modelled as real numbers; `Math.hypot`,
`Math.atan2` and the JS remainder operator `%` are modelled explicitly.
-/

namespace Zheide

/-! ## Data model (src/types.ts) -/

/-- `TransformState` from src/types.ts: position as percentages of the
container, uniform scale factor, rotation in degrees. -/
structure TransformState where
  x : ℝ
  y : ℝ
  scale : ℝ
  rotation : ℝ

/-- `TextState` from src/types.ts. -/
structure TextState where
  content : String
  color : String
  fontFamily : String
  fontSize : ℝ
  transform : TransformState

/-- `ImageState` from src/types.ts; `src : string | null` becomes `Option String`. -/
structure ImageState where
  src : Option String
  transform : TransformState

/-- `ViewConfig` from src/types.ts: one side (front or back). -/
structure ViewConfig where
  text : TextState
  image : ImageState

/-- `ConfigState` from src/types.ts: the root configuration. -/
structure ConfigState where
  baseColor : String
  front : ViewConfig
  back : ViewConfig

/-! ## JavaScript numeric primitives -/

/-- `Math.hypot(a, b)`. -/
noncomputable def jsHypot (a b : ℝ) : ℝ := Real.sqrt (a ^ 2 + b ^ 2)

/-- `Math.atan2(y, x)`: the standard piecewise definition over `Real.arctan`. -/
noncomputable def jsAtan2 (y x : ℝ) : ℝ :=
  if 0 < x then Real.arctan (y / x)
  else if x < 0 then
    (if 0 ≤ y then Real.arctan (y / x) + Real.pi else Real.arctan (y / x) - Real.pi)
  else
    (if 0 < y then Real.pi / 2 else if y < 0 then -(Real.pi / 2) else 0)

/-- Truncation toward zero, as JS division-remainder semantics uses. -/
noncomputable def jsTrunc (v : ℝ) : ℤ := if 0 ≤ v then ⌊v⌋ else ⌈v⌉

/-- The JS remainder operator `a % b`: `a - b * trunc(a / b)`; the result
keeps the sign of the dividend. -/
noncomputable def jsMod (a b : ℝ) : ℝ := a - b * (jsTrunc (a / b) : ℝ)

/-! ## Gesture controller (src/unnamed/part_000, TextureEditor) -/

/-- The interaction kinds of the editor: `'move' | 'rotate' | 'scale'`. -/
inductive InteractionType where
  | move
  | rotate
  | scale

/-- A DOMRect of the editing container: `getBoundingClientRect()`. -/
structure Rect where
  left : ℝ
  top : ℝ
  width : ℝ
  height : ℝ

/-- The `dragRef.current` snapshot captured at gesture start. -/
structure DragRef where
  startX : ℝ
  startY : ℝ
  initialTransform : TransformState
  initialDistance : ℝ
  initialAngle : ℝ
  centerX : ℝ
  centerY : ℝ

/-- `handleMouseDown` of TextureEditor: captures the drag snapshot.  The
element's center is converted from percentage space to pixels using the
container rect at gesture start, and the pixel distance and angle from
that center to the pointer are stored. -/
noncomputable def handleMouseDown (transform : TransformState)
    (clientX clientY : ℝ) (containerRect : Rect) : DragRef :=
  let centerX := (transform.x / 100) * containerRect.width
  let centerY := (transform.y / 100) * containerRect.height
  let mouseRelX := clientX - containerRect.left
  let mouseRelY := clientY - containerRect.top
  { startX := clientX
    startY := clientY
    initialTransform := transform
    initialDistance := jsHypot (mouseRelX - centerX) (mouseRelY - centerY)
    initialAngle := jsAtan2 (mouseRelY - centerY) (mouseRelX - centerX)
    centerX := centerX
    centerY := centerY }

/-- `handleMouseMove` of TextureEditor, one pointer-move step: given the
interaction kind, the drag snapshot, the element's current transform and
the pointer's client position, together with the container rect fetched
at the moment of the update, produce the merged transform that
`updateTransform` writes back.  `dragRef.current.initialDistance || 1`
is JS falsiness: `0` becomes `1`, every other value is kept. -/
noncomputable def handleMouseMove (interaction : InteractionType)
    (drag : DragRef) (current : TransformState)
    (currentX currentY : ℝ) (containerRect : Rect) : TransformState :=
  match interaction with
  | .move =>
      let deltaX := currentX - drag.startX
      let deltaY := currentY - drag.startY
      let percentDeltaX := (deltaX / containerRect.width) * 100
      let percentDeltaY := (deltaY / containerRect.height) * 100
      { current with
        x := max 0 (min 100 (drag.initialTransform.x + percentDeltaX))
        y := max 0 (min 100 (drag.initialTransform.y + percentDeltaY)) }
  | .scale =>
      let mouseRelX := currentX - containerRect.left
      let mouseRelY := currentY - containerRect.top
      let currentDist := jsHypot (mouseRelX - drag.centerX) (mouseRelY - drag.centerY)
      let safeInitialDist := if drag.initialDistance = 0 then 1 else drag.initialDistance
      let newScale := drag.initialTransform.scale * (currentDist / safeInitialDist)
      { current with scale := max 0.1 (min 5 newScale) }
  | .rotate =>
      let mouseRelX := currentX - containerRect.left
      let mouseRelY := currentY - containerRect.top
      let currentAngle := jsAtan2 (mouseRelY - drag.centerY) (mouseRelX - drag.centerX)
      let angleDiffDeg := (currentAngle - drag.initialAngle) * (180 / Real.pi)
      { current with rotation := jsMod (drag.initialTransform.rotation + angleDiffDeg) 360 }

/-- The bounds invariant of §3 of the spec: `x, y ∈ [0, 100]`,
`scale ∈ [0.1, 5]` (rotation is unconstrained). -/
def TransformState.InBounds (t : TransformState) : Prop :=
  0 ≤ t.x ∧ t.x ≤ 100 ∧ 0 ≤ t.y ∧ t.y ≤ 100 ∧ 0.1 ≤ t.scale ∧ t.scale ≤ 5

/-- Modelled from the spec's move-gesture wording: clamp of the initial
coordinate plus the pointer delta converted to percent of the container
dimension. -/
noncomputable def specMoveClamp (x0 delta size : ℝ) : ℝ :=
  max 0 (min 100 (x0 + 100 * delta / size))

/-- Modelled from the spec: the scale-gesture formula as §4.2 states it,
`initialScale × (currentDistance / initialDistance)` clamped to `[0.1, 5]`
with the initial distance floored to a minimum of 1 pixel. -/
noncomputable def specScaleFloored (initialScale currentDistance initialDistance : ℝ) : ℝ :=
  max 0.1 (min 5 (initialScale * (currentDistance / max initialDistance 1)))

/-! ## Texture compositor (src/src/services/canvasService.ts) -/

/-- A decoded image's natural dimensions, as `loadImage` resolves them. -/
structure Img where
  width : ℝ
  height : ℝ

/-- One drawing command issued against the 2048 by 2048 canvas.  `drawImage`
and `fillText` record the translation target (the element center), the
rotation in degrees applied about it, and the clip rectangle active when the
command ran; `fillText` also records that the font was set in bold weight
with centered alignment and middle baseline (always true in `drawView`). -/
inductive RenderOp where
  | fillRect (color : String) (x y w h : ℝ)
  | drawImage (src : String) (posX posY drawWidth drawHeight rotDeg : ℝ) (clip : Rect)
  | fillText (content color fontFamily : String) (fontSize posX posY rotDeg : ℝ)
      (bold : Bool) (clip : Rect)

/-- The image block of `drawView` (canvasService lines 48 to 76): draws only
when `viewConfig.image.src` is truthy (neither null nor the empty string)
and `loadImage` resolves; a rejected load is caught and skips this image
only.  Base width is half the view width, height follows the image's aspect
ratio, both scaled by the transform's scale. -/
noncomputable def drawViewImageOps (loader : String → Option Img)
    (viewConfig : ViewConfig) (offsetX offsetY width height : ℝ) : List RenderOp :=
  match viewConfig.image.src with
  | none => []
  | some src =>
    if src = "" then []
    else
      match loader src with
      | none => []
      | some img =>
        let aspect := img.width / img.height
        let baseWidth := width * 0.5
        let baseHeight := baseWidth / aspect
        let drawWidth := baseWidth * viewConfig.image.transform.scale
        let drawHeight := baseHeight * viewConfig.image.transform.scale
        let posX := offsetX + (viewConfig.image.transform.x / 100) * width
        let posY := offsetY + (viewConfig.image.transform.y / 100) * height
        [.drawImage src posX posY drawWidth drawHeight
          viewConfig.image.transform.rotation ⟨offsetX, offsetY, width, height⟩]

/-- The text block of `drawView` (canvasService lines 79 to 101): draws only
when the content string is truthy; the font size is
`fontSize × (width / 100) × scale`, the font is bold, and the text is
centered on the translated point. -/
noncomputable def drawViewTextOps (viewConfig : ViewConfig)
    (offsetX offsetY width height : ℝ) : List RenderOp :=
  if viewConfig.text.content = "" then []
  else
    let posX := offsetX + (viewConfig.text.transform.x / 100) * width
    let posY := offsetY + (viewConfig.text.transform.y / 100) * height
    let actualFontSize := viewConfig.text.fontSize * (width / 100) * viewConfig.text.transform.scale
    [.fillText viewConfig.text.content viewConfig.text.color viewConfig.text.fontFamily
      actualFontSize posX posY viewConfig.text.transform.rotation true
      ⟨offsetX, offsetY, width, height⟩]

/-- `drawView`: clips to the view area, then the image block, then the text
block. -/
noncomputable def drawView (loader : String → Option Img) (viewConfig : ViewConfig)
    (offsetX offsetY width height : ℝ) : List RenderOp :=
  drawViewImageOps loader viewConfig offsetX offsetY width height
    ++ drawViewTextOps viewConfig offsetX offsetY width height

/-- `generateTexture`: on a 2048 by 2048 canvas, fail when no 2D context is
available, otherwise fill the background with the base color, draw the
front view on the left half and the back view on the right half, and
return the recorded commands (the data-URL encoding is outside the model). -/
noncomputable def generateTexture (ctxAvailable : Bool) (loader : String → Option Img)
    (config : ConfigState) : Except String (List RenderOp) :=
  if !ctxAvailable then .error "Failed to get 2D context"
  else
    let size : ℝ := 2048
    .ok (RenderOp.fillRect config.baseColor 0 0 size size
      :: (drawView loader config.front 0 0 (size / 2) size
        ++ drawView loader config.back (size / 2) 0 (size / 2) size))

/-! ## Default configuration (App.tsx) -/

/-- `DEFAULT_VIEW_STATE` of App.tsx. -/
def DEFAULT_VIEW_STATE : ViewConfig :=
  { text := { content := "", color := "#000000", fontFamily := "Arial", fontSize := 5,
              transform := { x := 50, y := 30, scale := 1, rotation := 0 } }
    image := { src := none, transform := { x := 50, y := 50, scale := 1, rotation := 0 } } }

/-- `INITIAL_STATE` of App.tsx: white base, front text ZHEIDE, empty back. -/
def INITIAL_STATE : ConfigState :=
  { baseColor := "#ffffff"
    front := { DEFAULT_VIEW_STATE with
               text := { DEFAULT_VIEW_STATE.text with content := "ZHEIDE" } }
    back := { DEFAULT_VIEW_STATE with
              text := { DEFAULT_VIEW_STATE.text with content := "" } } }

/-! ## Painted-point semantics for the recorded commands -/

/-- Membership of a point in a rectangle, the model of the canvas clip
region built by `ctx.rect(offsetX, offsetY, width, height); ctx.clip()`. -/
def Rect.containsPt (r : Rect) (px py : ℝ) : Prop :=
  r.left ≤ px ∧ px < r.left + r.width ∧ r.top ≤ py ∧ py < r.top + r.height

/-- Rotation by `deg` degrees of a point of the element's local frame,
the model of `ctx.rotate(rotation * Math.PI / 180)`. -/
noncomputable def rotatePt (deg qx qy : ℝ) : ℝ × ℝ :=
  let θ := deg * Real.pi / 180
  (qx * Real.cos θ - qy * Real.sin θ, qx * Real.sin θ + qy * Real.cos θ)

/-- The set of canvas points a recorded command may paint.  Clipping
restricts `drawImage` and `fillText` to their recorded clip rectangle.  An
image paints (at most) its axis-aligned draw rectangle rotated about the
element center; glyph rasters are font-dependent, so `raster content
fontFamily fontSize (qx, qy)` abstracts the set of local-frame points a
`fillText` call covers before rotation and translation. -/
def opPaints (raster : String → String → ℝ → ℝ × ℝ → Prop)
    (op : RenderOp) (px py : ℝ) : Prop :=
  match op with
  | .fillRect _ x y w h => Rect.containsPt ⟨x, y, w, h⟩ px py
  | .drawImage _ posX posY drawWidth drawHeight rotDeg clip =>
      Rect.containsPt clip px py ∧
        ∃ qx qy, |qx| ≤ drawWidth / 2 ∧ |qy| ≤ drawHeight / 2 ∧
          px = posX + (rotatePt rotDeg qx qy).1 ∧ py = posY + (rotatePt rotDeg qx qy).2
  | .fillText content _ fontFamily fontSize posX posY rotDeg _ clip =>
      Rect.containsPt clip px py ∧
        ∃ qx qy, raster content fontFamily fontSize (qx, qy) ∧
          px = posX + (rotatePt rotDeg qx qy).1 ∧ py = posY + (rotatePt rotDeg qx qy).2

/-- The clip rectangle a command was recorded under, if any. -/
def RenderOp.clipOf : RenderOp → Option Rect
  | .fillRect _ _ _ _ _ => none
  | .drawImage _ _ _ _ _ _ clip => some clip
  | .fillText _ _ _ _ _ _ _ _ clip => some clip

/-! ## Element deletion and image upload (TextureEditor / ControlPanel) -/

/-- The element kinds of the editor: `'image' | 'text'`. -/
inductive ElementKind where
  | image
  | text

/-- The two garment sides: `'front' | 'back'`. -/
inductive Side where
  | front
  | back

/-- The opposite side. -/
def Side.other : Side → Side
  | .front => .back
  | .back => .front

/-- The view configuration of one side of the root state. -/
def ConfigState.view (config : ConfigState) : Side → ViewConfig
  | .front => config.front
  | .back => config.back

/-- `handleDelete` of TextureEditor: image deletion nulls the source, text
deletion empties the content; both then clear the active-element selection
(the second component). -/
def handleDelete (elementKind : ElementKind) (viewConfig : ViewConfig) :
    ViewConfig × Option ElementKind :=
  match elementKind with
  | .image => ({ viewConfig with image := { viewConfig.image with src := none } }, none)
  | .text => ({ viewConfig with text := { viewConfig.text with content := "" } }, none)

/-- The renderer's presence guard for the image layer (TextureEditor JSX,
`viewConfig.image.src && ...`): null and the empty string are falsy. -/
def rendererShowsImage (viewConfig : ViewConfig) : Bool :=
  match viewConfig.image.src with
  | none => false
  | some s => !(s == "")

/-- The renderer's presence guard for the text layer (TextureEditor JSX,
`viewConfig.text.content && ...`). -/
def rendererShowsText (viewConfig : ViewConfig) : Bool :=
  !(viewConfig.text.content == "")

/-- `updateActiveSide` of ControlPanel: replace the active side's view
configuration, keep the rest of the root state. -/
def updateActiveSide (activeSide : Side) (updater : ViewConfig → ViewConfig)
    (config : ConfigState) : ConfigState :=
  match activeSide with
  | .front => { config with front := updater config.front }
  | .back => { config with back := updater config.back }

/-- `handleImageUpload` of ControlPanel, once the FileReader has produced
`dataUrl`: set the active side's image source and reset its transform to
the fixed default; nothing else changes. -/
def handleImageUpload (activeSide : Side) (dataUrl : String)
    (config : ConfigState) : ConfigState :=
  updateActiveSide activeSide (fun prev =>
    { prev with image := { prev.image with
        src := some dataUrl
        transform := { x := 50, y := 50, scale := 1, rotation := 0 } } }) config

/-! ## Base-size conventions of renderer and compositor (C1) -/

/-- The live renderer's image layer width in CSS percent of the editing
container (TextureEditor JSX: `width: 40 * scale %`). -/
def rendererImageWidthPercent (scale : ℝ) : ℝ := 40 * scale

/-- The live renderer's effective text size in pixels: the span's CSS font
size is `fontSize * 2` pixels, and the layer's CSS `scale(...)` transform
multiplies the painted size by the transform's scale. -/
def rendererTextFontPx (fontSize scale : ℝ) : ℝ := fontSize * 2 * scale

/-- The compositor's image draw width (canvasService: `baseWidth = width *
0.5`, `drawWidth = baseWidth * scale`). -/
noncomputable def compositorImageDrawWidth (width scale : ℝ) : ℝ := width * 0.5 * scale

/-- The compositor's text font size (canvasService: `fontSize * (width /
100) * scale`). -/
noncomputable def compositorFontSize (fontSize width scale : ℝ) : ℝ :=
  fontSize * (width / 100) * scale

/-! ## Theorems -/

/-- C4: every gesture update (move, scale or rotate) applied to a transform
whose fields are in bounds yields a transform with `x, y ∈ [0, 100]` and
`scale ∈ [0.1, 5]`, for every drag snapshot, pointer position and container
rect. -/
theorem gesture_update_preserves_bounds (interaction : InteractionType)
    (drag : DragRef) (current : TransformState) (currentX currentY : ℝ)
    (containerRect : Rect) (h : current.InBounds) :
    (handleMouseMove interaction drag current currentX currentY containerRect).InBounds := by
  obtain ⟨hx0, hx1, hy0, hy1, hs0, hs1⟩ := h
  cases interaction <;>
    refine ⟨?_, ?_, ?_, ?_, ?_, ?_⟩ <;>
    simp only [handleMouseMove] <;>
    first
      | assumption
      | exact le_max_left _ _
      | exact max_le (by norm_num) (min_le_left _ _)

/-- Witness for C4: a concrete in-bounds transform stays in bounds after a
concrete move update. -/
theorem gesture_update_preserves_bounds_witness :
    (handleMouseMove .move ⟨0, 0, ⟨50, 30, 1, 0⟩, 0, 0, 0, 0⟩ ⟨50, 30, 1, 0⟩
      10 10 ⟨0, 0, 300, 300⟩).InBounds :=
  gesture_update_preserves_bounds .move ⟨0, 0, ⟨50, 30, 1, 0⟩, 0, 0, 0, 0⟩
    ⟨50, 30, 1, 0⟩ 10 10 ⟨0, 0, 300, 300⟩
    (by refine ⟨?_, ?_, ?_, ?_, ?_, ?_⟩ <;> norm_num)

/-- C5: a move update on a drag begun by `handleMouseDown` at pointer
`(sx, sy)` and continued at pointer `(cx, cy)` sets exactly
`x = clamp(x0 + 100*(cx - sx)/W, 0, 100)` and
`y = clamp(y0 + 100*(cy - sy)/H, 0, 100)`, where `W` and `H` come from the
container rect passed at the moment of the update (the rect at gesture
start is irrelevant to the move branch). -/
theorem move_gesture_formula (t0 : TransformState) (sx sy : ℝ) (rect0 : Rect)
    (current : TransformState) (cx cy : ℝ) (rect : Rect)
    (hW : 0 < rect.width) (hH : 0 < rect.height) :
    (handleMouseMove .move (handleMouseDown t0 sx sy rect0) current cx cy rect).x
      = specMoveClamp t0.x (cx - sx) rect.width
    ∧ (handleMouseMove .move (handleMouseDown t0 sx sy rect0) current cx cy rect).y
      = specMoveClamp t0.y (cy - sy) rect.height := by
  have hx : (cx - sx) / rect.width * 100 = 100 * (cx - sx) / rect.width := by ring
  have hy : (cy - sy) / rect.height * 100 = 100 * (cy - sy) / rect.height := by ring
  constructor <;> simp only [handleMouseMove, handleMouseDown, specMoveClamp, hx, hy]

/-- Witness for C5: the move formula evaluated at a concrete gesture, with a
pointer far below the container (the y-coordinate clamps to 100). -/
theorem move_gesture_formula_witness :
    (handleMouseMove .move (handleMouseDown ⟨50, 30, 1, 0⟩ 0 0 ⟨0, 0, 300, 300⟩)
        ⟨50, 30, 1, 0⟩ 30 9000 ⟨0, 0, 300, 300⟩).x
      = specMoveClamp 50 (30 - 0) 300
    ∧ (handleMouseMove .move (handleMouseDown ⟨50, 30, 1, 0⟩ 0 0 ⟨0, 0, 300, 300⟩)
        ⟨50, 30, 1, 0⟩ 30 9000 ⟨0, 0, 300, 300⟩).y
      = specMoveClamp 30 (9000 - 0) 300 :=
  move_gesture_formula ⟨50, 30, 1, 0⟩ 0 0 ⟨0, 0, 300, 300⟩ ⟨50, 30, 1, 0⟩
    30 9000 ⟨0, 0, 300, 300⟩ (by norm_num) (by norm_num)

/-- The hypotenuse of a leg and zero is the leg's absolute value. -/
theorem jsHypot_zero_right (a : ℝ) : jsHypot a 0 = |a| := by
  simp [jsHypot, Real.sqrt_sq_eq_abs]

/-- `Math.atan2(0, x)` is `0` for positive `x`. -/
theorem jsAtan2_zero_of_pos {x : ℝ} (hx : 0 < x) : jsAtan2 0 x = 0 := by
  simp [jsAtan2, hx]

/-- `Math.atan2(y, 0)` is `π/2` for positive `y`. -/
theorem jsAtan2_pos_zero {y : ℝ} (hy : 0 < y) : jsAtan2 y 0 = Real.pi / 2 := by
  simp [jsAtan2, hy, lt_irrefl]

/-- The JS remainder by 360 of a value in `(-360, 0)` is the value itself:
negative results are not re-normalized into `[0, 360)`. -/
theorem jsMod_neg_eq_self {a : ℝ} (h0 : -360 < a) (h1 : a < 0) : jsMod a 360 = a := by
  have hq0 : a / 360 < 0 := div_neg_of_neg_of_pos h1 (by norm_num)
  have hq1 : (-1 : ℝ) < a / 360 := by
    rw [lt_div_iff₀ (show (0 : ℝ) < 360 by norm_num)]
    linarith
  have htr : jsTrunc (a / 360) = 0 := by
    rw [jsTrunc, if_neg (not_le.mpr hq0), Int.ceil_eq_zero_iff]
    exact ⟨hq1, hq0.le⟩
  simp [jsMod, htr]

/-- Counterexample to C6: a scale gesture started half a pixel away from the
element's center.  The code divides by the raw initial distance `1/2`
(`initialDistance || 1` only replaces `0`), yielding scale `2` when the
pointer reaches distance `1`, while the spec's floored formula yields `1`. -/
theorem scale_divisor_not_floored :
    (handleMouseMove .scale
        (handleMouseDown ⟨0, 0, 1, 0⟩ (1 / 2) 0 ⟨0, 0, 100, 100⟩)
        ⟨0, 0, 1, 0⟩ 1 0 ⟨0, 0, 100, 100⟩).scale = 2
    ∧ specScaleFloored 1 1 (1 / 2) = 1
    ∧ (2 : ℝ) ≠ 1 := by
  refine ⟨?_, ?_, by norm_num⟩
  · have h1 : jsHypot (1 / 2 : ℝ) 0 = 1 / 2 := by
      rw [jsHypot_zero_right]; norm_num
    have h2 : jsHypot (1 : ℝ) 0 = 1 := by
      rw [jsHypot_zero_right]; norm_num
    simp only [handleMouseMove, handleMouseDown]
    norm_num [h1, h2]
  · rw [specScaleFloored]
    norm_num

/-- C6 as amended: the scale update divides by the captured initial distance
itself whenever it is nonzero (even when it is below one pixel); only an
exactly-zero initial distance is replaced by the defensive divisor 1.  The
result is always the clamp of `initialScale × (currentDistance / divisor)`
into `[0.1, 5]`. -/
theorem scale_gesture_divisor (drag : DragRef) (current : TransformState)
    (currentX currentY : ℝ) (containerRect : Rect) :
    (handleMouseMove .scale drag current currentX currentY containerRect).scale
      = max 0.1 (min 5 (drag.initialTransform.scale *
          (jsHypot (currentX - containerRect.left - drag.centerX)
              (currentY - containerRect.top - drag.centerY) /
            (if drag.initialDistance = 0 then 1 else drag.initialDistance))))
    ∧ ∀ (t0 : TransformState) (sx sy : ℝ) (rect0 : Rect),
        0 ≤ (handleMouseDown t0 sx sy rect0).initialDistance := by
  exact ⟨by simp only [handleMouseMove],
    fun t0 sx sy rect0 => Real.sqrt_nonneg _⟩

/-- C7: a rotate gesture begun with the pointer directly right of the fixed
center (distance `d > 0`) and continued with the pointer directly below that
center (distance `e > 0`, screen y grows downward) sets the rotation to
`(initialRotation + 90) % 360` under the JS remainder; and that remainder
keeps the sign of its dividend, so a negative result in `(-360, 0)` is left
as is, not re-normalized into `[0, 360)`. -/
theorem rotate_gesture_quarter_turn (t0 current : TransformState)
    (containerRect : Rect) (d e : ℝ) (hd : 0 < d) (he : 0 < e) :
    (handleMouseMove .rotate
        (handleMouseDown t0
          (containerRect.left + (t0.x / 100) * containerRect.width + d)
          (containerRect.top + (t0.y / 100) * containerRect.height)
          containerRect)
        current
        (containerRect.left + (t0.x / 100) * containerRect.width)
        (containerRect.top + (t0.y / 100) * containerRect.height + e)
        containerRect).rotation
      = jsMod (t0.rotation + 90) 360
    ∧ (∀ (drag : DragRef) (current : TransformState) (cx cy : ℝ) (rect : Rect),
        (handleMouseMove .rotate drag current cx cy rect).rotation
          = jsMod (drag.initialTransform.rotation
              + (jsAtan2 (cy - rect.top - drag.centerY) (cx - rect.left - drag.centerX)
                  - drag.initialAngle) * (180 / Real.pi)) 360)
    ∧ ∀ a : ℝ, -360 < a → a < 0 → jsMod a 360 = a := by
  refine ⟨?_, fun drag current cx cy rect => by simp only [handleMouseMove],
    fun a h0 h1 => jsMod_neg_eq_self h0 h1⟩
  simp only [handleMouseMove, handleMouseDown]
  have e1 : containerRect.left + (t0.x / 100) * containerRect.width + d
      - containerRect.left - (t0.x / 100) * containerRect.width = d := by ring
  have e2 : containerRect.top + (t0.y / 100) * containerRect.height
      - containerRect.top - (t0.y / 100) * containerRect.height = 0 := by ring
  have e3 : containerRect.left + (t0.x / 100) * containerRect.width
      - containerRect.left - (t0.x / 100) * containerRect.width = 0 := by ring
  have e4 : containerRect.top + (t0.y / 100) * containerRect.height + e
      - containerRect.top - (t0.y / 100) * containerRect.height = e := by ring
  rw [e1, e2, e3, e4, jsAtan2_zero_of_pos hd, jsAtan2_pos_zero he]
  have hpi : (Real.pi / 2 - 0) * (180 / Real.pi) = 90 := by
    field_simp
    ring
  rw [hpi]

/-- Witness for C7: a concrete quarter-turn rotate gesture on a 300 by 300
container, starting 40 pixels right of the element center and ending 70
pixels below it. -/
theorem rotate_gesture_quarter_turn_witness :
    (handleMouseMove .rotate
        (handleMouseDown ⟨50, 30, 1, 0⟩
          ((⟨0, 0, 300, 300⟩ : Rect).left + ((50 : ℝ) / 100) * (⟨0, 0, 300, 300⟩ : Rect).width + 40)
          ((⟨0, 0, 300, 300⟩ : Rect).top + ((30 : ℝ) / 100) * (⟨0, 0, 300, 300⟩ : Rect).height)
          ⟨0, 0, 300, 300⟩)
        ⟨50, 30, 1, 0⟩
        ((⟨0, 0, 300, 300⟩ : Rect).left + ((50 : ℝ) / 100) * (⟨0, 0, 300, 300⟩ : Rect).width)
        ((⟨0, 0, 300, 300⟩ : Rect).top + ((30 : ℝ) / 100) * (⟨0, 0, 300, 300⟩ : Rect).height + 70)
        ⟨0, 0, 300, 300⟩).rotation
      = jsMod ((0 : ℝ) + 90) 360
    ∧ (∀ (drag : DragRef) (current : TransformState) (cx cy : ℝ) (rect : Rect),
        (handleMouseMove .rotate drag current cx cy rect).rotation
          = jsMod (drag.initialTransform.rotation
              + (jsAtan2 (cy - rect.top - drag.centerY) (cx - rect.left - drag.centerX)
                  - drag.initialAngle) * (180 / Real.pi)) 360)
    ∧ ∀ a : ℝ, -360 < a → a < 0 → jsMod a 360 = a :=
  rotate_gesture_quarter_turn ⟨50, 30, 1, 0⟩ ⟨50, 30, 1, 0⟩ ⟨0, 0, 300, 300⟩
    40 70 (by norm_num) (by norm_num)

/-- C2 as amended: compositing the default configuration yields exactly a
white 2048 by 2048 base fill plus the text ZHEIDE in black, bold, font size
51.2, centered at (512, 614.4) — 30% of the 2048-pixel height is 614.4, not
the claimed 614 — clipped to the left half; no command touches the right
(back) half, which therefore stays entirely white.  Holds for every image
loader since no image source is set. -/
theorem default_config_composite (loader : String → Option Img) :
    generateTexture true loader INITIAL_STATE
      = .ok [RenderOp.fillRect "#ffffff" 0 0 2048 2048,
             RenderOp.fillText "ZHEIDE" "#000000" "Arial" (256 / 5) 512 (3072 / 5) 0 true
               ⟨0, 0, 1024, 2048⟩] := by
  simp only [generateTexture, drawView, drawViewImageOps, drawViewTextOps,
    INITIAL_STATE, DEFAULT_VIEW_STATE]
  norm_num
  decide

/-- Counterexample to C2 as stated: the default composite's text command is
centered at y = 3072/5 = 614.4, and 614.4 is not the claimed pixel 614. -/
theorem default_config_text_center_not_614 :
    generateTexture true (fun _ => none) INITIAL_STATE
      = .ok [RenderOp.fillRect "#ffffff" 0 0 2048 2048,
             RenderOp.fillText "ZHEIDE" "#000000" "Arial" (256 / 5) 512 (3072 / 5) 0 true
               ⟨0, 0, 1024, 2048⟩]
    ∧ (3072 / 5 : ℝ) ≠ 614 := by
  constructor
  · simp only [generateTexture, drawView, drawViewImageOps, drawViewTextOps,
      INITIAL_STATE, DEFAULT_VIEW_STATE]
    norm_num
    decide
  · norm_num

/-- Every command emitted by `drawView` carries the view region as its clip
rectangle. -/
theorem mem_drawView_clipOf {loader : String → Option Img} {viewConfig : ViewConfig}
    {offsetX offsetY width height : ℝ} {op : RenderOp}
    (h : op ∈ drawView loader viewConfig offsetX offsetY width height) :
    op.clipOf = some ⟨offsetX, offsetY, width, height⟩ := by
  rw [drawView, List.mem_append] at h
  rcases h with h | h
  · rw [drawViewImageOps] at h
    split at h
    · simp at h
    · split at h
      · simp at h
      · split at h
        · simp at h
        · simp only [List.mem_singleton] at h
          subst h
          rfl
  · rw [drawViewTextOps] at h
    split at h
    · simp at h
    · simp only [List.mem_singleton] at h
      subst h
      rfl

/-- A painted point of a clipped command lies inside its clip rectangle. -/
theorem opPaints_mem_clip {raster : String → String → ℝ → ℝ × ℝ → Prop}
    {op : RenderOp} {px py : ℝ} {clip : Rect}
    (hclip : op.clipOf = some clip) (h : opPaints raster op px py) :
    clip.containsPt px py := by
  cases op with
  | fillRect color x y w h' => exact absurd hclip (by simp [RenderOp.clipOf])
  | drawImage src posX posY dw dh rotDeg c =>
      rw [RenderOp.clipOf, Option.some_inj] at hclip
      subst hclip
      exact h.1
  | fillText content color fontFamily fontSize posX posY rotDeg b c =>
      rw [RenderOp.clipOf, Option.some_inj] at hclip
      subst hclip
      exact h.1

/-- C3: in the 2048 by 2048 composite, a front-side command (left half,
offset 0, width 1024) never paints a point with x at or beyond 1024, and a
back-side command (offset 1024) never paints a point with x below 1024 —
for every configuration, image loader, glyph raster, transform position,
scale and rotation. -/
theorem compositor_split_invariant (config : ConfigState)
    (loader : String → Option Img) (raster : String → String → ℝ → ℝ × ℝ → Prop)
    (op : RenderOp) (px py : ℝ) :
    (op ∈ drawView loader config.front 0 0 (2048 / 2) 2048 →
      opPaints raster op px py → px < 1024)
    ∧ (op ∈ drawView loader config.back (2048 / 2) 0 (2048 / 2) 2048 →
      opPaints raster op px py → 1024 ≤ px) := by
  constructor
  · intro hmem hpaint
    have hc := opPaints_mem_clip (mem_drawView_clipOf hmem) hpaint
    have := hc.2.1
    norm_num at this
    exact this
  · intro hmem hpaint
    have hc := opPaints_mem_clip (mem_drawView_clipOf hmem) hpaint
    have := hc.1
    norm_num at this
    exact this

/-- Witness for C3: the default front text command is among the front-view
commands, paints the point (512, 614.4) under the trivial glyph raster,
and the theorem places that point strictly left of the 1024-pixel seam. -/
theorem compositor_split_invariant_witness : (512 : ℝ) < 1024 :=
  (compositor_split_invariant INITIAL_STATE (fun _ => none) (fun _ _ _ _ => True)
      (RenderOp.fillText "ZHEIDE" "#000000" "Arial" (256 / 5) 512 (3072 / 5) 0 true
        ⟨0, 0, 1024, 2048⟩) 512 (3072 / 5)).1
    (by
      simp only [drawView, drawViewImageOps, drawViewTextOps, INITIAL_STATE,
        DEFAULT_VIEW_STATE]
      norm_num
      decide)
    (by
      refine ⟨⟨by norm_num, by norm_num, by norm_num, by norm_num⟩, 0, 0, trivial, ?_, ?_⟩ <;>
        simp [rotatePt])

/-- The image block emits nothing when the source is set but the loader
fails on it (the `catch` around `loadImage` skips the layer). -/
theorem drawViewImageOps_of_load_fail {loader : String → Option Img}
    {viewConfig : ViewConfig} {src : String}
    (hsrc : viewConfig.image.src = some src) (hload : loader src = none)
    (offsetX offsetY width height : ℝ) :
    drawViewImageOps loader viewConfig offsetX offsetY width height = [] := by
  simp only [drawViewImageOps, hsrc]
  by_cases hs : src = "" <;> simp [hs, hload]

/-- The image block emits nothing when no source is set. -/
theorem drawViewImageOps_of_none {loader : String → Option Img}
    {viewConfig : ViewConfig} (hsrc : viewConfig.image.src = none)
    (offsetX offsetY width height : ℝ) :
    drawViewImageOps loader viewConfig offsetX offsetY width height = [] := by
  simp only [drawViewImageOps, hsrc]

/-- C8: (1) without a 2D context, `generateTexture` fails with the explicit
error and produces no command list; (2) and (3): when a side's image source
is set but fails to load, the composite equals the composite of the same
configuration with that image source absent — the base fill, both texts and
the other side are rendered unchanged, and the operation still succeeds. -/
theorem compositor_failure_semantics :
    (∀ (loader : String → Option Img) (config : ConfigState),
      generateTexture false loader config = .error "Failed to get 2D context")
    ∧ (∀ (loader : String → Option Img) (config : ConfigState) (src : String),
      config.front.image.src = some src → loader src = none →
      generateTexture true loader config
        = generateTexture true loader
            { config with front := { config.front with
                image := { config.front.image with src := none } } })
    ∧ (∀ (loader : String → Option Img) (config : ConfigState) (src : String),
      config.back.image.src = some src → loader src = none →
      generateTexture true loader config
        = generateTexture true loader
            { config with back := { config.back with
                image := { config.back.image with src := none } } }) := by
  refine ⟨fun loader config => by simp [generateTexture], ?_, ?_⟩
  · intro loader config src hsrc hload
    have h1 := drawViewImageOps_of_load_fail hsrc hload 0 0 ((2048 : ℝ) / 2) 2048
    have h2 : drawViewImageOps loader
        { config.front with image := { config.front.image with src := none } }
        0 0 ((2048 : ℝ) / 2) 2048 = [] := drawViewImageOps_of_none rfl 0 0 _ 2048
    simp [generateTexture, drawView, h1, h2]
    rfl
  · intro loader config src hsrc hload
    have h1 := drawViewImageOps_of_load_fail hsrc hload ((2048 : ℝ) / 2) 0 ((2048 : ℝ) / 2) 2048
    have h2 : drawViewImageOps loader
        { config.back with image := { config.back.image with src := none } }
        ((2048 : ℝ) / 2) 0 ((2048 : ℝ) / 2) 2048 = [] := drawViewImageOps_of_none rfl _ 0 _ 2048
    simp [generateTexture, drawView, h1, h2]
    rfl

/-- Witness for C8: a concrete configuration whose front image source no
loader can resolve composites exactly like the same configuration with the
front image absent. -/
theorem compositor_failure_semantics_witness :
    generateTexture true (fun _ => none)
        { INITIAL_STATE with front := { INITIAL_STATE.front with
            image := { INITIAL_STATE.front.image with src := some "corrupt.png" } } }
      = generateTexture true (fun _ => none)
          { { INITIAL_STATE with front := { INITIAL_STATE.front with
                image := { INITIAL_STATE.front.image with src := some "corrupt.png" } } } with
              front := { { INITIAL_STATE.front with
                image := { INITIAL_STATE.front.image with src := some "corrupt.png" } } with
                  image := { { INITIAL_STATE.front.image with src := some "corrupt.png" } with
                      src := none } } } :=
  compositor_failure_semantics.2.1 (fun _ => none)
    { INITIAL_STATE with front := { INITIAL_STATE.front with
        image := { INITIAL_STATE.front.image with src := some "corrupt.png" } } }
    "corrupt.png" rfl rfl

/-- C9: deleting the text element empties only its content, deleting the
image element nulls only its source; both clear the selection, preserve the
deleted element's transform, the other element and (through
`updateActiveSide`) the base color and the other side; and a cleared
element is drawn neither by the live renderer's presence guards nor by the
next composite's `drawView`. -/
theorem delete_element_spec (vc : ViewConfig) :
    ((handleDelete .text vc).1.text.content = ""
      ∧ (handleDelete .text vc).2 = none
      ∧ (handleDelete .text vc).1.text.color = vc.text.color
      ∧ (handleDelete .text vc).1.text.fontFamily = vc.text.fontFamily
      ∧ (handleDelete .text vc).1.text.fontSize = vc.text.fontSize
      ∧ (handleDelete .text vc).1.text.transform = vc.text.transform
      ∧ (handleDelete .text vc).1.image = vc.image
      ∧ rendererShowsText (handleDelete .text vc).1 = false
      ∧ ∀ (offsetX offsetY width height : ℝ),
          drawViewTextOps (handleDelete .text vc).1 offsetX offsetY width height = [])
    ∧ ((handleDelete .image vc).1.image.src = none
      ∧ (handleDelete .image vc).2 = none
      ∧ (handleDelete .image vc).1.image.transform = vc.image.transform
      ∧ (handleDelete .image vc).1.text = vc.text
      ∧ rendererShowsImage (handleDelete .image vc).1 = false
      ∧ ∀ (loader : String → Option Img) (offsetX offsetY width height : ℝ),
          drawViewImageOps loader (handleDelete .image vc).1 offsetX offsetY width height = [])
    ∧ (∀ (config : ConfigState) (k : ElementKind),
        (updateActiveSide .front (fun v => (handleDelete k v).1) config).baseColor
            = config.baseColor
        ∧ (updateActiveSide .front (fun v => (handleDelete k v).1) config).back = config.back
        ∧ (updateActiveSide .back (fun v => (handleDelete k v).1) config).baseColor
            = config.baseColor
        ∧ (updateActiveSide .back (fun v => (handleDelete k v).1) config).front
            = config.front) := by
  refine ⟨⟨rfl, rfl, rfl, rfl, rfl, rfl, rfl, ?_, ?_⟩,
          ⟨rfl, rfl, rfl, rfl, ?_, ?_⟩,
          fun config k => ⟨rfl, rfl, rfl, rfl⟩⟩
  · simp [rendererShowsText, handleDelete]
  · intro offsetX offsetY width height
    simp [drawViewTextOps, handleDelete]
  · simp [rendererShowsImage, handleDelete]
  · intro loader offsetX offsetY width height
    exact drawViewImageOps_of_none rfl offsetX offsetY width height

/-- C10: uploading an image to the active side sets that side's image
source to the new data URL and resets the image transform to the fixed
default (50, 50, scale 1, rotation 0); the side's text, the other side and
the base color are unchanged. -/
theorem image_upload_resets_transform (activeSide : Side) (dataUrl : String)
    (config : ConfigState) :
    ((handleImageUpload activeSide dataUrl config).view activeSide).image.src = some dataUrl
    ∧ ((handleImageUpload activeSide dataUrl config).view activeSide).image.transform
        = ⟨50, 50, 1, 0⟩
    ∧ ((handleImageUpload activeSide dataUrl config).view activeSide).text
        = (config.view activeSide).text
    ∧ (handleImageUpload activeSide dataUrl config).view activeSide.other
        = config.view activeSide.other
    ∧ (handleImageUpload activeSide dataUrl config).baseColor = config.baseColor := by
  cases activeSide <;> exact ⟨rfl, rfl, rfl, rfl, rfl⟩

/-- Counterexample to C1: at scale 1, the renderer's image spans 40% of the
editing container while the compositor's image spans 50% of its UV region
(1024 px wide), and on a 300-pixel editing container the default text
(font size 5) spans 1/30 of the container while the composited text spans
1/20 of its region — the base-size fractions are not equal. -/
theorem base_size_not_mirrored :
    rendererImageWidthPercent 1 / 100 ≠ compositorImageDrawWidth 1024 1 / 1024
    ∧ rendererTextFontPx 5 1 / 300 ≠ compositorFontSize 5 1024 1 / 1024 := by
  constructor <;>
    norm_num [rendererImageWidthPercent, compositorImageDrawWidth,
      rendererTextFontPx, compositorFontSize]

/-- C1 as amended: the two conventions are proportional, not equal.  For
every scale the compositor's image width fraction of its region is 5/4 of
the renderer's fraction of its container; and the text fractions coincide
exactly for a 200-pixel-wide editing container (the renderer's text
fraction depends on the container's pixel width, the compositor's does
not). -/
theorem base_size_ratio (scale fontSize regionWidth : ℝ) (hr : regionWidth ≠ 0) :
    compositorImageDrawWidth regionWidth scale / regionWidth
        = (5 / 4) * (rendererImageWidthPercent scale / 100)
    ∧ compositorFontSize fontSize regionWidth scale / regionWidth
        = fontSize * scale / 100
    ∧ rendererTextFontPx fontSize scale / 200
        = compositorFontSize fontSize regionWidth scale / regionWidth := by
  refine ⟨?_, ?_, ?_⟩ <;>
    · simp only [rendererImageWidthPercent, compositorImageDrawWidth, rendererTextFontPx,
        compositorFontSize]
      field_simp
      ring

/-- Witness for C1 as amended: the proportionality evaluated at scale 1,
font size 5 and the 1024-pixel region width. -/
theorem base_size_ratio_witness :
    compositorImageDrawWidth 1024 1 / 1024 = (5 / 4) * (rendererImageWidthPercent 1 / 100)
    ∧ compositorFontSize 5 1024 1 / 1024 = 5 * 1 / 100
    ∧ rendererTextFontPx 5 1 / 200 = compositorFontSize 5 1024 1 / 1024 :=
  base_size_ratio 1 5 1024 (by norm_num)

end Zheide

